import Mathlib

/-!
Shallow embedding of the live-transcription WebSocket proxy
(`src/app.py`, handler `live_transcription` plus its inner coroutine
`forward_from_deepgram`).

The handler is modelled as a function from a `Scenario` — the
environment-supplied inputs: the subprotocol entries offered by the
client, the outcome of JWT validation, the query parameters, whether the
upstream connect succeeds, and the event streams seen by the two
forwarding loops — to a `SessionResult` recording the sequential trace
of observable actions together with the outputs of both forwarding
loops.  String prefix/slice operations are carried out on the
character lists underlying `String`, keeping every definition
kernel-evaluable.
-/

namespace LiveProxy

/-- A WebSocket data frame: tagged union of a text payload and a binary
payload (bytes modelled as a list of naturals). -/
inductive Frame where
  | text (s : String)
  | binary (b : List Nat)
deriving DecidableEq, Repr

/-- One result of `websocket.receive()` in the client-to-upstream loop:
a message carrying a `text` entry, a message carrying a `bytes` entry, a
message carrying neither (e.g. the disconnect message), a receive that
raises `WebSocketDisconnect`, or a receive that raises some other
exception. -/
inductive ClientEvent where
  | msgText (s : String)
  | msgBytes (b : List Nat)
  | msgOther
  | disconnect
  | recvError
deriving DecidableEq, Repr

/-- One step of the `async for message in deepgram_ws` iteration in
`forward_from_deepgram`: a frame is yielded, the iteration ends with
`ConnectionClosed`, the task is cancelled while suspended, or the
iteration raises some other exception. -/
inductive UpEvent where
  | frame (f : Frame)
  | closedClean
  | cancelled
  | iterError
deriving DecidableEq, Repr

/-- How the client-to-upstream loop left its `while True` body:
`disconnected` via the `WebSocketDisconnect` handler, `errored` via the
generic `Exception` handler (failed upstream send or failed receive), or
`waiting` — the supplied event list ran out while the loop was still
blocked in `websocket.receive()`. -/
inductive OutExit where
  | disconnected
  | errored
  | waiting
deriving DecidableEq, Repr

/-- How `forward_from_deepgram` ended: `stopped` by observing the stop
event, `closedClean` via the `ConnectionClosed` handler, `cancelled` via
the `CancelledError` handler, `errored` via the generic handler (which
sends the `PROVIDER_ERROR` message), or `waiting` — the supplied event
list ran out while the iteration was still pending. -/
inductive InEnd where
  | stopped
  | closedClean
  | cancelled
  | errored
  | waiting
deriving DecidableEq, Repr

/-- The structured error message `json.dumps({...})` built by the
handler: a `type` field, a human-readable `description`, a machine
`code`. -/
structure ErrorMsg where
  ty : String
  description : String
  code : String
deriving DecidableEq, Repr

/-- Observable actions of the handler, in program order. -/
inductive Action where
  | validate (token : String)
  | closeClient (code : Nat) (reason : String)
  | acceptClient (subprotocol : String)
  | connectUpstream (url : String)
  | startRelay
  | sendClientError (m : ErrorMsg)
  | setStop
  | cancelForwardTask
  | closeUpstream
  | logCloseError
  | handlerReturn
deriving DecidableEq, Repr

/-- The literal scanned for in the subprotocol entries
(`proto.startswith("access_token.")` in `live_transcription`). -/
def accessTokenMarker : String := "access_token."

/-- The check `proto.startswith("access_token.")`, computed on the
underlying character list. -/
def startsWithMarker (p : String) : Bool :=
  accessTokenMarker.data.isPrefixOf p.data

/-- The slice `proto[len("access_token."):]` — the token embedded after
the marker, computed on the underlying character list. -/
def dropMarker (p : String) : String :=
  ⟨p.data.drop accessTokenMarker.length⟩

/-- The validation loop of `live_transcription` (lines 139-148): scan
the entries in order; at the FIRST entry starting with `access_token.`
try `jwt.decode` on the embedded token and `break` regardless of the
outcome; `valid_proto` is that entry when decoding succeeded, else
`None`. `jwtOk` abstracts whether `jwt.decode` succeeds (it is `false`
for a missing, malformed, forged or expired token). -/
def findValidProto (jwtOk : String → Bool) : List String → Option String
  | [] => none
  | p :: rest =>
    if startsWithMarker p then
      (if jwtOk (dropMarker p) then some p else none)
    else findValidProto jwtOk rest

/-- The fixed upstream endpoint `DEEPGRAM_STT_URL` of `src/app.py`. -/
def DEEPGRAM_STT_URL : String := "wss://api.deepgram.com/v1/listen"

/-- The lookup `websocket.query_params.get(key, dflt)`: Starlette's
`QueryParams` is built like a `dict`, so a repeated key keeps its LAST
value. -/
def getQueryParam (q : List (String × String)) (key dflt : String) : String :=
  match q.foldl (fun acc kv => if kv.fst = key then some kv.snd else acc) none with
  | some v => v
  | none => dflt

/-- The f-string of lines 172-181 building `deepgram_url`: the seven
query parameters interpolated verbatim, each falling back to its
default. -/
def buildDeepgramUrl (q : List (String × String)) : String :=
  DEEPGRAM_STT_URL ++ "?" ++
  "model=" ++ getQueryParam q "model" "nova-2" ++ "&" ++
  "language=" ++ getQueryParam q "language" "en" ++ "&" ++
  "smart_format=" ++ getQueryParam q "smart_format" "true" ++ "&" ++
  "interim_results=" ++ getQueryParam q "interim_results" "true" ++ "&" ++
  "punctuate=" ++ getQueryParam q "punctuate" "true" ++ "&" ++
  "encoding=" ++ getQueryParam q "encoding" "linear16" ++ "&" ++
  "sample_rate=" ++ getQueryParam q "sample_rate" "16000"

/-- The client-to-upstream loop (lines 222-233). `upSendOk k` says
whether the `k`-th `deepgram_ws.send` succeeds; a failed send raises and
is caught by the generic `except`, exiting the loop. A message with
neither a `text` nor a `bytes` entry matches no branch of the
`if`/`elif` and is skipped. Returns the frames delivered upstream and
how the loop exited. -/
def outboundLoop (upSendOk : Nat → Bool) (k : Nat) :
    List ClientEvent → List Frame × OutExit
  | [] => ([], OutExit.waiting)
  | ClientEvent.msgText s :: rest =>
    if upSendOk k then
      let r := outboundLoop upSendOk (k + 1) rest
      (Frame.text s :: r.1, r.2)
    else ([], OutExit.errored)
  | ClientEvent.msgBytes b :: rest =>
    if upSendOk k then
      let r := outboundLoop upSendOk (k + 1) rest
      (Frame.binary b :: r.1, r.2)
    else ([], OutExit.errored)
  | ClientEvent.msgOther :: rest => outboundLoop upSendOk k rest
  | ClientEvent.disconnect :: _ => ([], OutExit.disconnected)
  | ClientEvent.recvError :: _ => ([], OutExit.errored)

/-- Whether `stop_event.is_set()` observes the stop event at iteration
`k`, given that the event is set just before iteration `stopAt` (and
stays set; `none` means it is never set while the loop runs). -/
def stopSeen : Option Nat → Nat → Bool
  | none, _ => false
  | some s, k => s ≤ k

/-- The upstream-to-client coroutine `forward_from_deepgram` (lines
193-215). Each received message is dropped if the stop event is set;
otherwise it is forwarded with `send_bytes`/`send_text` according to its
tag. `clientSendOk k` says whether the `k`-th send to the client
succeeds; a failure is caught by the generic handler, which sends ONE
`PROVIDER_ERROR` message — as does any other unexpected iteration
error — while `ConnectionClosed` and `CancelledError` are caught
silently. Returns (frames delivered to the client, number of
`PROVIDER_ERROR` messages sent, how the coroutine ended). -/
def inboundLoop (stopAt : Option Nat) (clientSendOk : Nat → Bool) (k : Nat) :
    List UpEvent → List Frame × Nat × InEnd
  | [] => ([], 0, InEnd.waiting)
  | e :: rest =>
    if stopSeen stopAt k then ([], 0, InEnd.stopped)
    else
      match e with
      | UpEvent.frame f =>
        if clientSendOk k then
          let r := inboundLoop stopAt clientSendOk (k + 1) rest
          (f :: r.1, r.2.1, r.2.2)
        else ([], 1, InEnd.errored)
      | UpEvent.closedClean => ([], 0, InEnd.closedClean)
      | UpEvent.cancelled => ([], 0, InEnd.cancelled)
      | UpEvent.iterError => ([], 1, InEnd.errored)

/-- Environment-supplied inputs of one run of `live_transcription`.
`protocols` is the subprotocol entry list, i.e. the result of
`[p.strip() for p in headers["sec-websocket-protocol"].split(",")]`
(line 138). -/
structure Scenario where
  protocols : List String
  jwtOk : String → Bool
  queryParams : List (String × String)
  connectOk : Bool
  connectErr : String
  clientEvents : List ClientEvent
  upSendOk : Nat → Bool
  upEvents : List UpEvent
  clientSendOk : Nat → Bool
  stopAt : Option Nat
  closeUpOk : Bool

/-- The `validate` action emitted for the first `access_token.` entry,
if any (only that entry's token is ever passed to `jwt.decode`). -/
def authValidateTrace (sc : Scenario) : List Action :=
  match sc.protocols.find? (fun p => startsWithMarker p) with
  | some p => [Action.validate (dropMarker p)]
  | none => []

/-- Result of one run: the sequential action trace of the handler, and
the outputs of the two forwarding loops (`none` when the relay never
started). When the client-to-upstream loop is still `waiting` the
handler has not returned, so the trace ends inside the relay. -/
structure SessionResult where
  trace : List Action
  outSent : List Frame
  outExit : Option OutExit
  inSent : List Frame
  providerErrors : Nat
  inEnd : Option InEnd
deriving Repr

/-- The handler `live_transcription` as a whole, assembled from the
pieces above, following the program text: validate the subprotocol
token (close `4401 "Unauthorized"` and return when none validates);
accept; build `deepgram_url` from the query parameters; connect
upstream — on failure the outer `except` sends the `CONNECTION_FAILED`
structured message and the `finally` block runs with no task and no
upstream handle; on success start `forward_from_deepgram`, run the
client loop, then the `finally` block: set the stop event, cancel and
await the forward task (`CancelledError` swallowed), and attempt
`deepgram_ws.close()`, logging — never re-raising — a close error. -/
def session (sc : Scenario) : SessionResult :=
  match findValidProto sc.jwtOk sc.protocols with
  | none =>
    { trace := authValidateTrace sc ++
        [Action.closeClient 4401 "Unauthorized", Action.handlerReturn]
      outSent := [], outExit := none
      inSent := [], providerErrors := 0, inEnd := none }
  | some proto =>
    let url := buildDeepgramUrl sc.queryParams
    let pre := authValidateTrace sc ++
      [Action.acceptClient proto, Action.connectUpstream url]
    if sc.connectOk then
      let inR := inboundLoop sc.stopAt sc.clientSendOk 0 sc.upEvents
      let outR := outboundLoop sc.upSendOk 0 sc.clientEvents
      match outR.2 with
      | OutExit.waiting =>
        { trace := pre ++ [Action.startRelay]
          outSent := outR.1, outExit := some OutExit.waiting
          inSent := inR.1, providerErrors := inR.2.1, inEnd := some inR.2.2 }
      | e =>
        { trace := pre ++ [Action.startRelay] ++
            [Action.setStop, Action.cancelForwardTask, Action.closeUpstream] ++
            (if sc.closeUpOk then [] else [Action.logCloseError]) ++
            [Action.handlerReturn]
          outSent := outR.1, outExit := some e
          inSent := inR.1, providerErrors := inR.2.1, inEnd := some inR.2.2 }
    else
      { trace := pre ++
          [Action.sendClientError ⟨"Error", sc.connectErr, "CONNECTION_FAILED"⟩,
           Action.setStop, Action.handlerReturn]
        outSent := [], outExit := none
        inSent := [], providerErrors := 0, inEnd := none }

/-- Whether an action closes the client-side connection handle. -/
def isClientClose : Action → Bool
  | Action.closeClient _ _ => true
  | _ => false

/-- The client event corresponding to a data frame. -/
def eventOfFrame : Frame → ClientEvent
  | Frame.text s => ClientEvent.msgText s
  | Frame.binary b => ClientEvent.msgBytes b

/-- Spec-side rendering of a key/value list as a query string:
`key=value` pairs joined by `&`. -/
def renderQuery : List (String × String) → String
  | [] => ""
  | [kv] => kv.fst ++ "=" ++ kv.snd
  | kv :: rest => kv.fst ++ "=" ++ kv.snd ++ "&" ++ renderQuery rest

/-- Modelled from the spec's words: the seven upstream parameters with
their provided-or-defaulted values, in the order they appear in the
connection string. -/
def upstreamParams (q : List (String × String)) : List (String × String) :=
  [("model", getQueryParam q "model" "nova-2"),
   ("language", getQueryParam q "language" "en"),
   ("smart_format", getQueryParam q "smart_format" "true"),
   ("interim_results", getQueryParam q "interim_results" "true"),
   ("punctuate", getQueryParam q "punctuate" "true"),
   ("encoding", getQueryParam q "encoding" "linear16"),
   ("sample_rate", getQueryParam q "sample_rate" "16000")]

/-- Characters of a URL after its first question mark. -/
def afterQuestionMark : List Char → List Char
  | [] => []
  | x :: xs => if x = '?' then xs else afterQuestionMark xs

/-- Split a character list on a separator character. -/
def splitOnChar (c : Char) : List Char → List (List Char)
  | [] => [[]]
  | x :: xs =>
    if x = c then [] :: splitOnChar c xs
    else
      match splitOnChar c xs with
      | [] => [[x]]
      | y :: ys => (x :: y) :: ys

/-- Break a character list at its first `=`. -/
def breakAtEq : List Char → List Char × Option (List Char)
  | [] => ([], none)
  | x :: xs =>
    if x = '=' then ([], some xs)
    else
      let r := breakAtEq xs
      (x :: r.1, r.2)

/-- One `key=value` pair of a query string (value empty when no `=`). -/
def parsePair (cs : List Char) : String × String :=
  match breakAtEq cs with
  | (k, some v) => (⟨k⟩, ⟨v⟩)
  | (k, none) => (⟨k⟩, "")

/-- The key/value pairs a URL's query string decomposes into. -/
def parseQuery (url : String) : List (String × String) :=
  (splitOnChar '&' (afterQuestionMark url.data)).map parsePair

/-- The three parameters the spec calls boolean-like. -/
def boolKeys : List String := ["smart_format", "interim_results", "punctuate"]

/-- A fully successful relaying session: one text and one binary frame
from the client, one text frame from the upstream. -/
def scRelay : Scenario :=
  { protocols := ["access_token.tok"]
    jwtOk := fun _ => true
    queryParams := []
    connectOk := true
    connectErr := ""
    clientEvents := [ClientEvent.msgText "hello", ClientEvent.msgBytes [1, 2]]
    upSendOk := fun _ => true
    upEvents := [UpEvent.frame (Frame.text "res")]
    clientSendOk := fun _ => true
    stopAt := none
    closeUpOk := true }

/-- A connection whose only subprotocol entry embeds a token that fails
validation. -/
def scExpired : Scenario :=
  { protocols := ["access_token.expired"]
    jwtOk := fun _ => false
    queryParams := []
    connectOk := true
    connectErr := ""
    clientEvents := []
    upSendOk := fun _ => true
    upEvents := []
    clientSendOk := fun _ => true
    stopAt := none
    closeUpOk := true }

/-- A connection offering a bad token first and a valid token second. -/
def scLater : Scenario :=
  { protocols := ["access_token.bad", "access_token.good"]
    jwtOk := fun t => t == "good"
    queryParams := []
    connectOk := true
    connectErr := ""
    clientEvents := []
    upSendOk := fun _ => true
    upEvents := []
    clientSendOk := fun _ => true
    stopAt := none
    closeUpOk := true }

/-- A session whose upstream connect fails. -/
def scConnFail : Scenario :=
  { protocols := ["access_token.tok"]
    jwtOk := fun _ => true
    queryParams := []
    connectOk := false
    connectErr := "boom"
    clientEvents := []
    upSendOk := fun _ => true
    upEvents := []
    clientSendOk := fun _ => true
    stopAt := none
    closeUpOk := true }

/-- A relaying session in which the first send to the upstream fails
while the upstream leg ends with a clean `ConnectionClosed`. -/
def scSendFail : Scenario :=
  { protocols := ["access_token.tok"]
    jwtOk := fun _ => true
    queryParams := []
    connectOk := true
    connectErr := ""
    clientEvents := [ClientEvent.msgBytes [0, 1, 2]]
    upSendOk := fun _ => false
    upEvents := [UpEvent.closedClean]
    clientSendOk := fun _ => true
    stopAt := none
    closeUpOk := true }

/-- A session ending with a client disconnect, a cancelled forward task
and a failing upstream close. -/
def scDisc : Scenario :=
  { protocols := ["access_token.tok"]
    jwtOk := fun _ => true
    queryParams := []
    connectOk := true
    connectErr := ""
    clientEvents := [ClientEvent.disconnect]
    upSendOk := fun _ => true
    upEvents := [UpEvent.cancelled]
    clientSendOk := fun _ => true
    stopAt := none
    closeUpOk := false }

/-- A session whose upstream closes cleanly while the client stays
idle. -/
def scIdle : Scenario :=
  { protocols := ["access_token.tok"]
    jwtOk := fun _ => true
    queryParams := []
    connectOk := true
    connectErr := ""
    clientEvents := []
    upSendOk := fun _ => true
    upEvents := [UpEvent.closedClean]
    clientSendOk := fun _ => true
    stopAt := none
    closeUpOk := true }

/-! Helper lemmas -/

/-- The validate trace is either empty or a single validate action for
the first marked entry's token. -/
theorem authValidateTrace_cases (sc : Scenario) :
    authValidateTrace sc = [] ∨ ∃ t, authValidateTrace sc = [Action.validate t] := by
  rcases h : sc.protocols.find? (fun p => startsWithMarker p) with _ | p
  · left
    simp [authValidateTrace, h]
  · right
    exact ⟨dropMarker p, by simp [authValidateTrace, h]⟩

/-- `forward_from_deepgram` sends no `PROVIDER_ERROR` message unless it
ends through its generic exception handler. -/
theorem inbound_errors_eq_zero (stopAt : Option Nat) (ok : Nat → Bool) (k : Nat)
    (evs : List UpEvent)
    (h : (inboundLoop stopAt ok k evs).2.2 ≠ InEnd.errored) :
    (inboundLoop stopAt ok k evs).2.1 = 0 := by
  induction evs generalizing k with
  | nil => rfl
  | cons e rest ih =>
    by_cases hs : stopSeen stopAt k
    · simp [inboundLoop, hs]
    · cases e with
      | frame f =>
        by_cases hok : ok k
        · simp only [inboundLoop, hs, hok, if_false, if_true, Bool.false_eq_true,
            not_false_eq_true, if_neg, if_pos] at h ⊢
          exact ih (k + 1) h
        · simp [inboundLoop, hs, hok] at h
      | closedClean => simp [inboundLoop, hs]
      | cancelled => simp [inboundLoop, hs]
      | iterError => simp [inboundLoop, hs] at h

/-- The run of a session that never validates a credential. -/
theorem session_none_eq (sc : Scenario)
    (h : findValidProto sc.jwtOk sc.protocols = none) :
    session sc =
      { trace := authValidateTrace sc ++
          [Action.closeClient 4401 "Unauthorized", Action.handlerReturn]
        outSent := [], outExit := none
        inSent := [], providerErrors := 0, inEnd := none } := by
  simp [session, h]

/-- The run of a session whose upstream connect fails. -/
theorem session_connect_fail_eq (sc : Scenario) (p : String)
    (hocc : findValidProto sc.jwtOk sc.protocols = some p)
    (hc : sc.connectOk = false) :
    session sc =
      { trace := authValidateTrace sc ++
          [Action.acceptClient p,
           Action.connectUpstream (buildDeepgramUrl sc.queryParams),
           Action.sendClientError ⟨"Error", sc.connectErr, "CONNECTION_FAILED"⟩,
           Action.setStop, Action.handlerReturn]
        outSent := [], outExit := none
        inSent := [], providerErrors := 0, inEnd := none } := by
  simp [session, hocc, hc]

/-- Whenever the relay starts, the `PROVIDER_ERROR` count of the
session is the count of the inbound loop. -/
theorem session_relay_provider_errors (sc : Scenario) (p : String)
    (hocc : findValidProto sc.jwtOk sc.protocols = some p)
    (hc : sc.connectOk = true) :
    (session sc).providerErrors =
      (inboundLoop sc.stopAt sc.clientSendOk 0 sc.upEvents).2.1 := by
  rcases he : (outboundLoop sc.upSendOk 0 sc.clientEvents).2 with _ | _ | _ <;>
    simp [session, hocc, hc, he]

/-- The trace of a session whose outbound loop is still blocked in
receive: the handler has not returned and no teardown has run. -/
theorem session_waiting_trace (sc : Scenario) (p : String)
    (hocc : findValidProto sc.jwtOk sc.protocols = some p)
    (hc : sc.connectOk = true)
    (hw : (outboundLoop sc.upSendOk 0 sc.clientEvents).2 = OutExit.waiting) :
    (session sc).trace = authValidateTrace sc ++
      [Action.acceptClient p,
       Action.connectUpstream (buildDeepgramUrl sc.queryParams),
       Action.startRelay] ∧
    (session sc).outExit = some OutExit.waiting := by
  constructor <;> simp [session, hocc, hc, hw]

/-- Teardown facts for every session whose outbound loop exited. -/
theorem relay_done_facts (sc : Scenario) (p : String)
    (hocc : findValidProto sc.jwtOk sc.protocols = some p)
    (hc : sc.connectOk = true)
    (hne : (outboundLoop sc.upSendOk 0 sc.clientEvents).2 ≠ OutExit.waiting) :
    Action.setStop ∈ (session sc).trace ∧
    Action.cancelForwardTask ∈ (session sc).trace ∧
    Action.closeUpstream ∈ (session sc).trace ∧
    Action.handlerReturn ∈ (session sc).trace ∧
    (sc.closeUpOk = false → Action.logCloseError ∈ (session sc).trace) ∧
    (session sc).trace.any isClientClose = false ∧
    (session sc).outExit = some (outboundLoop sc.upSendOk 0 sc.clientEvents).2 := by
  rcases he : (outboundLoop sc.upSendOk 0 sc.clientEvents).2 with _ | _ | _
  · rcases authValidateTrace_cases sc with h0 | ⟨t, h0⟩ <;>
      by_cases hcl : sc.closeUpOk <;>
      simp [session, hocc, hc, he, h0, hcl, isClientClose]
  · rcases authValidateTrace_cases sc with h0 | ⟨t, h0⟩ <;>
      by_cases hcl : sc.closeUpOk <;>
      simp [session, hocc, hc, he, h0, hcl, isClientClose]
  · exact absurd he hne

/-- The outbound loop forwards a list of data frames unchanged when
every upstream send succeeds, and keeps waiting for more. -/
theorem outboundLoop_all_ok (frames : List Frame) (k : Nat) :
    outboundLoop (fun _ => true) k (frames.map eventOfFrame) =
      (frames, OutExit.waiting) := by
  induction frames generalizing k with
  | nil => rfl
  | cons f rest ih =>
    cases f with
    | text s => simp [eventOfFrame, outboundLoop, ih]
    | binary b => simp [eventOfFrame, outboundLoop, ih]

/-- The inbound loop forwards a list of upstream frames unchanged when
every client send succeeds and the stop event is never set. -/
theorem inboundLoop_all_ok (frames : List Frame) (k : Nat) :
    inboundLoop none (fun _ => true) k (frames.map UpEvent.frame) =
      (frames, 0, InEnd.waiting) := by
  induction frames generalizing k with
  | nil => rfl
  | cons f rest ih => simp [inboundLoop, stopSeen, ih]

/-- A subprotocol list with no marked entry never validates. -/
theorem fvp_none_of_no_marker (ok : String → Bool) (ps : List String)
    (h : ∀ p ∈ ps, startsWithMarker p = false) : findValidProto ok ps = none := by
  induction ps with
  | nil => rfl
  | cons p rest ih =>
    have hp := h p (List.mem_cons_self p rest)
    simp only [findValidProto, hp, Bool.false_eq_true, if_false]
    exact ih (fun x hx => h x (List.mem_cons_of_mem p hx))

/-- When the first marked entry carries an invalid token, the whole
list never validates, whatever follows that entry. -/
theorem fvp_first_bad (ok : String → Bool) (xs : List String) (y : String)
    (ys : List String)
    (hxs : ∀ x ∈ xs, startsWithMarker x = false)
    (hy : startsWithMarker y = true)
    (hbad : ok (dropMarker y) = false) :
    findValidProto ok (xs ++ y :: ys) = none := by
  induction xs with
  | nil => simp [findValidProto, hy, hbad]
  | cons x xs ih =>
    have hx := hxs x (List.mem_cons_self x xs)
    simp only [List.cons_append, findValidProto, hx, Bool.false_eq_true, if_false]
    exact ih (fun z hz => hxs z (List.mem_cons_of_mem x hz))

/-- Invariant of the last-wins lookup fold: any property holding for
every value stored under `key` holds for the fold's result. -/
theorem foldl_lookup_prop (key : String) (P : String → Prop) :
    ∀ (q : List (String × String)) (acc : Option String),
      (∀ kv ∈ q, kv.fst = key → P kv.snd) →
      (∀ v, acc = some v → P v) →
      ∀ v, q.foldl (fun a kv => if kv.fst = key then some kv.snd else a) acc = some v →
        P v := by
  intro q
  induction q with
  | nil => intro acc _ hacc v hv; exact hacc v hv
  | cons kv q ih =>
    intro acc h hacc v hv
    refine ih _ (fun x hx => h x (List.mem_cons_of_mem kv hx)) ?_ v hv
    intro w hw
    by_cases hk : kv.fst = key
    · simp only [hk, if_pos rfl] at hw
      cases hw
      exact h kv (List.mem_cons_self kv q) hk
    · simp only [if_neg hk] at hw
      exact hacc w hw

/-- Any property holding for the default and for every value stored
under `key` holds for `getQueryParam`. -/
theorem getQueryParam_of_values (q : List (String × String)) (key dflt : String)
    (P : String → Prop)
    (h : ∀ kv ∈ q, kv.fst = key → P kv.snd) (hd : P dflt) :
    P (getQueryParam q key dflt) := by
  unfold getQueryParam
  rcases hv : q.foldl (fun a kv => if kv.fst = key then some kv.snd else a) none with _ | v
  · rw [hv]
    exact hd
  · rw [hv]
    exact foldl_lookup_prop key P q none h (by intro w hw; cases hw) v hv

/-- The connection string of the code is the rendered query of the
seven provided-or-defaulted parameters. -/
theorem url_render (q : List (String × String)) :
    buildDeepgramUrl q = DEEPGRAM_STT_URL ++ "?" ++ renderQuery (upstreamParams q) := by
  simp only [buildDeepgramUrl, renderQuery, upstreamParams, DEEPGRAM_STT_URL,
    String.append_assoc]
  rfl

/-! Claims -/

/-- Claim C1: during a relaying session every client frame is delivered
to the upstream and every upstream frame is delivered to the client,
exactly once, in order, with tag and payload unchanged — the loops never
parse, mutate or re-serialize payloads, they only dispatch on the tag. -/
theorem relay_preserves_frames (sc : Scenario) (p : String)
    (toUp fromUp : List Frame)
    (hocc : findValidProto sc.jwtOk sc.protocols = some p)
    (hc : sc.connectOk = true)
    (hce : sc.clientEvents = toUp.map eventOfFrame)
    (hue : sc.upEvents = fromUp.map UpEvent.frame)
    (hus : sc.upSendOk = fun _ => true)
    (hcs : sc.clientSendOk = fun _ => true)
    (hstop : sc.stopAt = none) :
    (session sc).outSent = toUp ∧
    (session sc).inSent = fromUp ∧
    (session sc).providerErrors = 0 ∧
    outboundLoop (fun _ => true) 0 (toUp.map eventOfFrame) =
      (toUp, OutExit.waiting) ∧
    inboundLoop none (fun _ => true) 0 (fromUp.map UpEvent.frame) =
      (fromUp, 0, InEnd.waiting) := by
  have hout := outboundLoop_all_ok toUp 0
  have hin := inboundLoop_all_ok fromUp 0
  have hw : (outboundLoop sc.upSendOk 0 sc.clientEvents).2 = OutExit.waiting := by
    rw [hce, hus, hout]
  refine ⟨?_, ?_, ?_, hout, hin⟩ <;>
    simp [session, hocc, hc, hw, hce, hue, hus, hcs, hstop, hout, hin]

/-- Claim C1 witness: a concrete relaying session delivering one text
and one binary frame upstream and one text frame to the client. -/
theorem relay_preserves_frames_witness :
    (session scRelay).outSent = [Frame.text "hello", Frame.binary [1, 2]] ∧
    (session scRelay).inSent = [Frame.text "res"] :=
  have h := relay_preserves_frames scRelay "access_token.tok"
    [Frame.text "hello", Frame.binary [1, 2]] [Frame.text "res"]
    (by decide) rfl rfl rfl rfl rfl rfl
  ⟨h.1, h.2.1⟩

/-- Claim C2: a connection presenting no `access_token.` entry or an
entry whose token fails validation (missing, malformed, forged or
expired) is closed with code 4401 at negotiation time; the upstream
connector is never invoked, the connection is never accepted and the
relay never starts. -/
theorem unauthorized_refused_before_upstream (sc : Scenario)
    (h : findValidProto sc.jwtOk sc.protocols = none) :
    (session sc).trace = authValidateTrace sc ++
      [Action.closeClient 4401 "Unauthorized", Action.handlerReturn] ∧
    (∀ url, Action.connectUpstream url ∉ (session sc).trace) ∧
    (∀ q, Action.acceptClient q ∉ (session sc).trace) ∧
    Action.startRelay ∉ (session sc).trace := by
  have hs := session_none_eq sc h
  rcases authValidateTrace_cases sc with h0 | ⟨t, h0⟩ <;>
    exact ⟨by rw [hs], by simp [hs, h0], by simp [hs, h0], by simp [hs, h0]⟩

/-- Claim C2 witness: a connection with an invalid token is closed with
4401 and nothing else happens. -/
theorem unauthorized_refused_before_upstream_witness :
    (session scExpired).trace = authValidateTrace scExpired ++
      [Action.closeClient 4401 "Unauthorized", Action.handlerReturn] :=
  (unauthorized_refused_before_upstream scExpired (by decide)).1

/-- Claim C3 counterexample: in a session where the send to the
upstream fails on the first client frame and the upstream leg then
reports `ConnectionClosed`, the outbound loop exits via the generic
handler but ZERO `PROVIDER_ERROR` messages are sent to the client — not
exactly one as claimed. -/
theorem upstream_send_failure_no_provider_error :
    (session scSendFail).outExit = some OutExit.errored ∧
    (session scSendFail).providerErrors = 0 ∧
    ¬ (session scSendFail).providerErrors = 1 := by
  refine ⟨by decide, by decide, by decide⟩

/-- Claim C3 amended: when a send to the upstream fails mid-stream the
outbound loop exits without deadlocking and the session tears down, but
no `PROVIDER_ERROR` message is sent unless the inbound loop itself hits
an unexpected error — `PROVIDER_ERROR` is produced only by the
upstream-to-client direction. -/
theorem outbound_send_failure_quiet_teardown (sc : Scenario) (p : String)
    (hocc : findValidProto sc.jwtOk sc.protocols = some p)
    (hc : sc.connectOk = true)
    (herr : (outboundLoop sc.upSendOk 0 sc.clientEvents).2 = OutExit.errored)
    (hin : (inboundLoop sc.stopAt sc.clientSendOk 0 sc.upEvents).2.2 ≠ InEnd.errored) :
    (session sc).outExit = some OutExit.errored ∧
    (session sc).providerErrors = 0 ∧
    Action.setStop ∈ (session sc).trace ∧
    Action.cancelForwardTask ∈ (session sc).trace ∧
    Action.handlerReturn ∈ (session sc).trace := by
  obtain ⟨h1, h2, h3, h4, h5, h6, h7⟩ :=
    relay_done_facts sc p hocc hc (by simp [herr])
  exact ⟨by rw [h7, herr],
    (session_relay_provider_errors sc p hocc hc).trans
      (inbound_errors_eq_zero _ _ _ _ hin), h1, h2, h4⟩

/-- Claim C3 amended witness: the send-failure session tears down
completely. -/
theorem outbound_send_failure_quiet_teardown_witness :
    Action.setStop ∈ (session scSendFail).trace ∧
    Action.cancelForwardTask ∈ (session scSendFail).trace ∧
    Action.handlerReturn ∈ (session scSendFail).trace :=
  have h := outbound_send_failure_quiet_teardown scSendFail "access_token.tok"
    (by decide) rfl (by decide) (by decide)
  ⟨h.2.2.1, h.2.2.2.1, h.2.2.2.2⟩

/-- Claim C4 counterexample: a session that terminates after a client
disconnect attempts close on the upstream handle but never on the
client handle — close is NOT attempted on each handle. -/
theorem teardown_never_closes_client_handle :
    Action.handlerReturn ∈ (session scDisc).trace ∧
    Action.closeUpstream ∈ (session scDisc).trace ∧
    Action.logCloseError ∈ (session scDisc).trace ∧
    (session scDisc).trace.any isClientClose = false := by
  refine ⟨by decide, by decide, by decide, by decide⟩

/-- Claim C4 amended: under any ordering of leg failures that ends the
relay, teardown sets the stop signal, cancels the forward task and
attempts close on the UPSTREAM handle (even when that close errors, the
error is logged and never re-raised, and the handler still returns);
the client handle is never explicitly closed during teardown. -/
theorem teardown_closes_upstream_only (sc : Scenario) (p : String)
    (hocc : findValidProto sc.jwtOk sc.protocols = some p)
    (hc : sc.connectOk = true)
    (hne : (outboundLoop sc.upSendOk 0 sc.clientEvents).2 ≠ OutExit.waiting) :
    Action.setStop ∈ (session sc).trace ∧
    Action.cancelForwardTask ∈ (session sc).trace ∧
    Action.closeUpstream ∈ (session sc).trace ∧
    Action.handlerReturn ∈ (session sc).trace ∧
    (sc.closeUpOk = false → Action.logCloseError ∈ (session sc).trace) ∧
    (session sc).trace.any isClientClose = false := by
  obtain ⟨h1, h2, h3, h4, h5, h6, _⟩ := relay_done_facts sc p hocc hc hne
  exact ⟨h1, h2, h3, h4, h5, h6⟩

/-- Claim C4 amended witness: teardown of the disconnect session
attempts the upstream close and returns. -/
theorem teardown_closes_upstream_only_witness :
    Action.closeUpstream ∈ (session scDisc).trace ∧
    Action.handlerReturn ∈ (session scDisc).trace :=
  have h := teardown_closes_upstream_only scDisc "access_token.tok"
    (by decide) rfl (by decide)
  ⟨h.2.2.1, h.2.2.2.1⟩

/-- Claim C5: the upstream connection string is exactly the fixed
endpoint followed by the seven parameters with their
provided-or-defaulted values; when the client only ever supplies
`true`/`false` for the boolean-like parameters, the rendered values are
the literal strings `true`/`false`; a client supplying no parameters
yields the fully defaulted connection string. -/
theorem upstream_url_exact_params (q : List (String × String))
    (hb : ∀ kv ∈ q, kv.fst ∈ boolKeys → kv.snd = "true" ∨ kv.snd = "false") :
    buildDeepgramUrl q = DEEPGRAM_STT_URL ++ "?" ++ renderQuery (upstreamParams q) ∧
    (∀ k ∈ boolKeys,
      getQueryParam q k "true" = "true" ∨ getQueryParam q k "true" = "false") ∧
    buildDeepgramUrl [] =
      "wss://api.deepgram.com/v1/listen?model=nova-2&language=en&smart_format=true&interim_results=true&punctuate=true&encoding=linear16&sample_rate=16000" := by
  refine ⟨url_render q, ?_, rfl⟩
  intro k hk
  refine getQueryParam_of_values q k "true"
    (fun v => v = "true" ∨ v = "false") ?_ (Or.inl rfl)
  intro kv hkv hfst
  exact hb kv hkv (by rw [hfst]; exact hk)

/-- Claim C5 witness: with a supplied model and `smart_format=false`
the connection string is the rendered parameter list. -/
theorem upstream_url_exact_params_witness :
    buildDeepgramUrl [("model", "nova-3"), ("smart_format", "false")] =
      DEEPGRAM_STT_URL ++ "?" ++
        renderQuery (upstreamParams [("model", "nova-3"), ("smart_format", "false")]) :=
  (upstream_url_exact_params [("model", "nova-3"), ("smart_format", "false")]
    (by decide)).1

/-- Claim C6 counterexample: when the upstream closes cleanly and the
client stays idle, no `PROVIDER_ERROR` is sent but the handler neither
returns nor closes the client leg — the session stays open with the
outbound loop still blocked in receive, so the client is NOT closed
within a bounded delay. -/
theorem upstream_clean_close_leaves_client_open :
    (session scIdle).inEnd = some InEnd.closedClean ∧
    (session scIdle).providerErrors = 0 ∧
    (session scIdle).outExit = some OutExit.waiting ∧
    Action.handlerReturn ∉ (session scIdle).trace ∧
    (session scIdle).trace.any isClientClose = false := by
  refine ⟨by decide, by decide, by decide, by decide, by decide⟩

/-- Claim C6 amended: when the upstream closes cleanly no
`PROVIDER_ERROR` message is ever sent; but the client leg is only torn
down after a further client-side event — with an idle client the
outbound loop stays blocked and the handler does not return, keeping
the client connection open indefinitely. -/
theorem upstream_clean_close_no_provider_error (sc : Scenario) (p : String)
    (hocc : findValidProto sc.jwtOk sc.protocols = some p)
    (hc : sc.connectOk = true)
    (hin : (inboundLoop sc.stopAt sc.clientSendOk 0 sc.upEvents).2.2 =
      InEnd.closedClean) :
    (session sc).providerErrors = 0 ∧
    (sc.clientEvents = [] →
      (session sc).outExit = some OutExit.waiting ∧
      Action.handlerReturn ∉ (session sc).trace ∧
      (session sc).trace.any isClientClose = false) := by
  constructor
  · exact (session_relay_provider_errors sc p hocc hc).trans
      (inbound_errors_eq_zero _ _ _ _ (by simp [hin]))
  · intro hce
    have hw : (outboundLoop sc.upSendOk 0 sc.clientEvents).2 = OutExit.waiting := by
      rw [hce]; rfl
    obtain ⟨ht, ho⟩ := session_waiting_trace sc p hocc hc hw
    refine ⟨ho, ?_, ?_⟩ <;>
      rcases authValidateTrace_cases sc with h0 | ⟨t, h0⟩ <;>
      simp [ht, h0, isClientClose]

/-- Claim C6 amended witness: the idle-client clean-close session sends
no `PROVIDER_ERROR` and never returns. -/
theorem upstream_clean_close_no_provider_error_witness :
    (session scIdle).providerErrors = 0 ∧
    (session scIdle).outExit = some OutExit.waiting :=
  have h := upstream_clean_close_no_provider_error scIdle "access_token.tok"
    (by decide) rfl (by decide)
  ⟨h.1, (h.2 rfl).1⟩

/-- Claim C7 is violated by the code: a client-supplied parameter value
is interpolated verbatim into the outbound URL with no allow-list
validation, so a value containing `&` smuggles an extra key/value pair
into the upstream connection string (here the eight-pair query of a
request that supplied only `model`). -/
theorem smuggled_parameter_reaches_upstream_url :
    parseQuery (buildDeepgramUrl [("model", "nova-2&callback=evil")]) =
      [("model", "nova-2"), ("callback", "evil"), ("language", "en"),
       ("smart_format", "true"), ("interim_results", "true"),
       ("punctuate", "true"), ("encoding", "linear16"),
       ("sample_rate", "16000")] := by decide

/-- Claim C8: when the upstream connect fails, the structured message
with `type`, `description` and machine code `CONNECTION_FAILED` is sent
to the client before the handler tears down and returns; the relay
loops are never started and nothing is forwarded in either direction. -/
theorem connect_failure_structured_error (sc : Scenario) (p : String)
    (hocc : findValidProto sc.jwtOk sc.protocols = some p)
    (hc : sc.connectOk = false) :
    (session sc).trace = authValidateTrace sc ++
      [Action.acceptClient p,
       Action.connectUpstream (buildDeepgramUrl sc.queryParams),
       Action.sendClientError ⟨"Error", sc.connectErr, "CONNECTION_FAILED"⟩,
       Action.setStop, Action.handlerReturn] ∧
    Action.startRelay ∉ (session sc).trace ∧
    (session sc).outExit = none ∧
    (session sc).inEnd = none ∧
    (session sc).outSent = [] ∧
    (session sc).inSent = [] := by
  have hs := session_connect_fail_eq sc p hocc hc
  rcases authValidateTrace_cases sc with h0 | ⟨t, h0⟩ <;>
    exact ⟨by rw [hs], by simp [hs, h0], by rw [hs], by rw [hs], by rw [hs],
      by rw [hs]⟩

/-- Claim C8 witness: a concrete failed connect produces exactly the
validate/accept/connect/error/teardown trace. -/
theorem connect_failure_structured_error_witness :
    (session scConnFail).trace = authValidateTrace scConnFail ++
      [Action.acceptClient "access_token.tok",
       Action.connectUpstream (buildDeepgramUrl scConnFail.queryParams),
       Action.sendClientError ⟨"Error", scConnFail.connectErr, "CONNECTION_FAILED"⟩,
       Action.setStop, Action.handlerReturn] :=
  (connect_failure_structured_error scConnFail "access_token.tok"
    (by decide) rfl).1

/-- Claim C9: only the first subprotocol entry starting with
`access_token.` is ever examined — when its token fails validation the
connection is rejected with 4401 and never accepted, no matter what the
later entries carry; and a list with no `access_token.` entry always
yields no valid credential. -/
theorem first_access_token_entry_decides (sc : Scenario) (xs : List String)
    (y : String) (ys : List String)
    (hp : sc.protocols = xs ++ y :: ys)
    (hxs : ∀ x ∈ xs, startsWithMarker x = false)
    (hy : startsWithMarker y = true)
    (hbad : sc.jwtOk (dropMarker y) = false) :
    findValidProto sc.jwtOk sc.protocols = none ∧
    Action.closeClient 4401 "Unauthorized" ∈ (session sc).trace ∧
    (∀ q, Action.acceptClient q ∉ (session sc).trace) ∧
    (∀ ps : List String, (∀ p ∈ ps, startsWithMarker p = false) →
      findValidProto sc.jwtOk ps = none) := by
  have hnone : findValidProto sc.jwtOk sc.protocols = none := by
    rw [hp]
    exact fvp_first_bad sc.jwtOk xs y ys hxs hy hbad
  have hs := session_none_eq sc hnone
  refine ⟨hnone, ?_, ?_, fun ps h => fvp_none_of_no_marker sc.jwtOk ps h⟩ <;>
    rcases authValidateTrace_cases sc with h0 | ⟨t, h0⟩ <;> simp [hs, h0]

/-- Claim C9 witness: a bad first token followed by a valid second
token is still rejected. -/
theorem first_access_token_entry_decides_witness :
    findValidProto scLater.jwtOk scLater.protocols = none ∧
    Action.closeClient 4401 "Unauthorized" ∈ (session scLater).trace :=
  have h := first_access_token_entry_decides scLater [] "access_token.bad"
    ["access_token.good"] rfl (by decide) (by decide) (by decide)
  ⟨h.1, h.2.1⟩

/-- Claim C10: a received message carrying neither a text nor a bytes
payload is silently skipped: deleting it from the client event stream
changes nothing about what the outbound loop forwards upstream, how it
exits or how many sends it attempts. -/
theorem non_data_messages_silently_skipped (upSendOk : Nat → Bool) (k : Nat)
    (xs ys : List ClientEvent) :
    outboundLoop upSendOk k (xs ++ ClientEvent.msgOther :: ys) =
      outboundLoop upSendOk k (xs ++ ys) := by
  induction xs generalizing k with
  | nil => simp [outboundLoop]
  | cons e xs ih =>
    cases e with
    | msgText s => simp [outboundLoop, ih]
    | msgBytes b => simp [outboundLoop, ih]
    | msgOther => simp [outboundLoop, ih]
    | disconnect => simp [outboundLoop]
    | recvError => simp [outboundLoop]

end LiveProxy
